import Mathlib

set_option maxRecDepth 20000
set_option maxHeartbeats 2000000

/-
Verification of the GraphRAG warehouse-risk pipeline
(query_generator.py, executor.py, answer_generator.py, pipeline.py).

Python strings are modelled as `List Char`; `str.upper` as a character map
(the source texts are ASCII), `str.strip` as dropping Python whitespace from
both ends.  Python dicts are modelled as association lists in insertion
order.  Network calls (the Groq chat completion, the Neo4j session) are
modelled as explicit inputs: an inductive of the possible outcome classes, or
an oracle function.  Exceptions that the source catches are modelled as the
value the handler returns; floats are modelled as exact rationals (every
comparison appearing in the source gives the same verdict on the float
reading and the rational reading of the literals involved).
-/

/- ----------------------------------------------------------------- -/
/- Python string primitives                                          -/
/- ----------------------------------------------------------------- -/

/-- Python whitespace, as used by `str.strip()`. -/
def pyIsSpace (c : Char) : Bool :=
  c = ' ' || c = '\t' || c = '\n' || c = '\r' || c = '\x0b' || c = '\x0c'

/-- Model of `str.upper()` (ASCII). -/
def pyUpper (s : List Char) : List Char := s.map Char.toUpper

/-- Leading part of `str.strip()`. -/
def pyStripL (s : List Char) : List Char := s.dropWhile pyIsSpace

/-- Trailing part of `str.strip()`. -/
def pyStripR (s : List Char) : List Char := (s.reverse.dropWhile pyIsSpace).reverse

/-- Model of `str.strip()`. -/
def pyStrip (s : List Char) : List Char := pyStripR (pyStripL s)

/-- Model of `str.startswith` for a single pattern. -/
def strStartsWith : List Char → List Char → Bool
  | [], _ => true
  | _ :: _, [] => false
  | c :: p, d :: s => c = d && strStartsWith p s

/-- Model of Python `pat in s` (substring test). -/
def strHasSub (pat : List Char) : List Char → Bool
  | [] => pat.isEmpty
  | c :: rest => strStartsWith pat (c :: rest) || strHasSub pat rest

/- ----------------------------------------------------------------- -/
/- query_generator.py : _validate_cypher_syntax (lines 424-436)      -/
/- ----------------------------------------------------------------- -/

/-- Model of `QueryGenerator._validate_cypher_syntax`: reject an
all-whitespace string, a string whose uppercasing does not start with
MATCH/CREATE/MERGE, and a string without RETURN; accept the rest.
The body of the Python `try` cannot raise, so the `except` branch is dead. -/
def validate_cypher (q : List Char) : Bool :=
  if (pyStrip q).isEmpty then false
  else if !(strStartsWith "MATCH".data (pyUpper q)
            || strStartsWith "CREATE".data (pyUpper q)
            || strStartsWith "MERGE".data (pyUpper q)) then false
  else if !(strHasSub "RETURN".data (pyUpper q)) then false
  else true

/- ----------------------------------------------------------------- -/
/- query_generator.py : _generate_fallback_query (lines 438-469)     -/
/- ----------------------------------------------------------------- -/

/-- Body of the `risk_identification` fallback branch, exactly as the Python
triple-quoted literal (leading newline and 12-space indentation included). -/
def riskFallbackText : String :=
  "\n            MATCH (w:Warehouse)\n            WHERE w.risk_score > 0.5\n            OPTIONAL MATCH (w)-[:EXPERIENCED]->(r:RiskEvent)\n            RETURN w.warehouse_id, w.risk_score, w.location_type, COUNT(r) as risk_events\n            ORDER BY w.risk_score DESC\n            LIMIT 10\n            "

/-- Part of the warehouse-specific fallback f-string before the interpolated
warehouse id. -/
def whFallbackPre : String :=
  "\n            MATCH (w:Warehouse \x7bwarehouse_id: \x27"

/-- Part of the warehouse-specific fallback f-string after the interpolated
warehouse id. -/
def whFallbackSuf : String :=
  "\x27\x7d)\n            OPTIONAL MATCH (w)-[:HAS_INFRASTRUCTURE]->(i:Infrastructure)\n            OPTIONAL MATCH (w)-[:EXPERIENCED]->(r:RiskEvent)\n            RETURN w.warehouse_id, w.risk_score, w.location_type,\n                   i.has_temp_regulation, i.has_electric_backup, i.is_flood_proof,\n                   COUNT(r) as risk_events\n            "

/-- Body of the default exploration fallback branch. -/
def explorationFallbackText : String :=
  "\n            MATCH (w:Warehouse)\n            OPTIONAL MATCH (w)-[:LOCATED_IN]->(rz:RegionalZone)-[:PART_OF]->(z:Zone)\n            RETURN w.warehouse_id, w.location_type, w.capacity_size, z.zone_name, w.risk_score\n            ORDER BY w.risk_score DESC\n            LIMIT 20\n            "

/-- Model of `QueryGenerator._generate_fallback_query`.  The Understanding
record enters through `intent = u.get('intent', 'exploration')` and
`entities = u.get('entities', [])`; entity mentions are modelled as strings
(`str(e)` is the identity on them). -/
def generate_fallback_query (intent : List Char) (entities : List (List Char)) :
    List Char :=
  if intent = "risk_identification".data then
    riskFallbackText.data
  else if entities.contains "warehouse".data
       || entities.any (fun e => strHasSub "WH_".data e) then
    let warehouse_id :=
      (entities.find? (fun e => strHasSub "WH_".data e)).getD "WH_0001".data
    whFallbackPre.data ++ warehouse_id ++ whFallbackSuf.data
  else
    explorationFallbackText.data

/-- Model of the non-template tier of `QueryGenerator.process_query`
(lines 412-422): `cypher_query` is the text returned by `generate_cypher`
(an LLM output, hence an arbitrary input here); an empty or invalid
candidate is replaced by the fallback query. -/
def process_query_generated (cypher_query intent : List Char)
    (entities : List (List Char)) : List Char :=
  if !cypher_query.isEmpty && validate_cypher cypher_query then cypher_query
  else generate_fallback_query intent entities

/- ----------------------------------------------------------------- -/
/- query_generator.py : understand_query (21-79), defaults (393-403) -/
/- ----------------------------------------------------------------- -/

/-- JSON values, as produced by `json.loads`; objects keep insertion order. -/
inductive JVal where
  | null
  | bool (b : Bool)
  | num (q : ℚ)
  | str (s : String)
  | arr (elems : List JVal)
  | obj (fields : List (String × JVal))

/-- Model of Python `dict` lookup (keys are unique, first match). -/
def dlookup : List (String × JVal) → String → Option JVal
  | [], _ => none
  | (k', v) :: rest, k => if k = k' then some v else dlookup rest k

/-- Model of `dict.get(k, default)`. -/
def dgetD (d : List (String × JVal)) (k : String) (v : JVal) : JVal :=
  (dlookup d k).getD v

/-- Model of `dict.setdefault`: keep an existing key, else append the pair. -/
def setdefault (d : List (String × JVal)) (k : String) (v : JVal) :
    List (String × JVal) :=
  if (dlookup d k).isSome then d else d ++ [(k, v)]

/-- Outcome classes of the chat-completion call inside `understand_query`:
the call raises; it returns text `json.loads` rejects; or it returns text
that parses to the JSON value `v`. -/
inductive LLMResult where
  | raiseErr
  | badJson
  | parsed (v : JVal)

/-- The default Understanding returned on a `json.JSONDecodeError`
(query_generator.py lines 47-61). -/
def default_general_understanding : List (String × JVal) :=
  [("intent", .str "general_query"),
   ("entities", .arr []),
   ("risk_factors", .arr []),
   ("time_scope", .str "current"),
   ("graph_pattern", .str "simple"),
   ("complexity", .str "medium"),
   ("data_focus", .arr [.str "warehouses"]),
   ("output_format", .str "summary"),
   ("filters", .arr []),
   ("requires_comparison", .bool false),
   ("requires_aggregation", .bool false),
   ("requires_temporal_analysis", .bool false),
   ("requires_geospatial_analysis", .bool false)]

/-- The default Understanding returned on any other exception
(query_generator.py lines 65-79). -/
def default_error_understanding : List (String × JVal) :=
  [("intent", .str "error"),
   ("entities", .arr []),
   ("risk_factors", .arr []),
   ("time_scope", .str "current"),
   ("graph_pattern", .str "simple"),
   ("complexity", .str "medium"),
   ("data_focus", .arr [.str "warehouses"]),
   ("output_format", .str "summary"),
   ("filters", .arr []),
   ("requires_comparison", .bool false),
   ("requires_aggregation", .bool false),
   ("requires_temporal_analysis", .bool false),
   ("requires_geospatial_analysis", .bool false)]

/-- True exactly on JSON objects. -/
def jIsObj : JVal → Bool
  | .obj _ => true
  | _ => false

/-- Model of `QueryGenerator.understand_query`.  A parse to a non-object
value makes the subsequent `understanding.get('intent')` raise an
AttributeError, which the generic `except Exception` handler turns into the
error default; a parsed object is returned as-is. -/
def understand_query : LLMResult → List (String × JVal)
  | .raiseErr => default_error_understanding
  | .badJson => default_general_understanding
  | .parsed (.obj d) => d
  | .parsed _ => default_error_understanding

/-- The ten `setdefault` calls of `QueryGenerator.process_query`
(lines 394-403), in source order. -/
def apply_understanding_defaults (u : List (String × JVal)) :
    List (String × JVal) :=
  setdefault (setdefault (setdefault (setdefault (setdefault (setdefault
    (setdefault (setdefault (setdefault (setdefault u
      "complexity" (.str "medium"))
      "graph_pattern" (.str "simple"))
      "data_focus" (.arr [.str "warehouses"]))
      "time_scope" (.str "current"))
      "requires_comparison" (.bool false))
      "requires_aggregation" (.bool false))
      "requires_temporal_analysis" (.bool false))
      "requires_geospatial_analysis" (.bool false))
      "output_format" (.str "summary"))
      "filters" (.arr [])

/-- The Understanding record as returned by `QueryGenerator.process_query`
for a given outcome of the chat-completion call. -/
def process_understanding (r : LLMResult) : List (String × JVal) :=
  apply_understanding_defaults (understand_query r)

/- ----------------------------------------------------------------- -/
/- executor.py : execute_query / execute_with_context (lines 23-132) -/
/- ----------------------------------------------------------------- -/

/-- A primary-result record as seen by the executor.  Each field is `some v`
exactly when the corresponding key is present in the record (the executor
tests key presence with `in` / `.get`). -/
structure ExecRecord where
  warehouse_id : Option String
  risk_score : Option ℚ
  zone : Option String

/-- Outcome of `session.run` for one query: either a record list or a raised
driver/query error. -/
inductive StoreResp where
  | ok (records : List ExecRecord)
  | failed (msg : String)

/-- Model of `QueryExecutor.execute_query`: any raised execution error is
caught, logged and swallowed into an empty record list. -/
def execute_query : StoreResp → List ExecRecord
  | .ok records => records
  | .failed _ => []

/-- The one-line summary of `_generate_results_summary`, one constructor per
f-string branch of the source (`noResults` stands for the exact text
`No results found`). -/
inductive ResultsSummary where
  | noResults
  | riskAvg (count : Nat) (avg : ℚ)
  | zoneStats (zoneCount : Nat) (count : Nat)
  | generic (count : Nat)

/-- Model of `QueryExecutor._generate_results_summary` (lines 116-132). -/
def generate_results_summary (results : List ExecRecord) : ResultsSummary :=
  match results with
  | [] => .noResults
  | first :: _ =>
    if first.risk_score.isSome then
      .riskAvg results.length
        ((results.map (fun r => r.risk_score.getD 0)).sum / (results.length : ℚ))
    else if first.zone.isSome then
      .zoneStats ((results.filterMap (fun r => r.zone)).dedup.length) results.length
    else
      .generic results.length

/-- The dictionary returned by `execute_with_context`; `context = none`
models the empty context dict `\x7b\x7d`, `some (rel, risk)` the dict with
the `related_entities` and `risk_summary` keys. -/
structure ContextOutput (γ δ : Type) where
  results : List ExecRecord
  context : Option (γ × δ)
  summary : ResultsSummary

/-- Model of `QueryExecutor.execute_with_context` (lines 44-76).  The two
follow-up context queries `_get_related_entities` and `_get_risk_summary`
are modelled as oracles receiving the id list the source passes them. -/
def execute_with_context {γ δ : Type} (resp : StoreResp)
    (related_entities : List String → γ) (risk_summary : List String → δ) :
    ContextOutput γ δ :=
  let primary := execute_query resp
  if primary.isEmpty then
    ⟨[], none, .noResults⟩
  else
    let warehouse_ids := primary.filterMap (fun r => r.warehouse_id)
    let context :=
      if warehouse_ids.isEmpty then none
      else some (related_entities (warehouse_ids.take 5),
                 risk_summary (warehouse_ids.take 5))
    ⟨primary, context, generate_results_summary primary⟩

/-- A record carrying only a `warehouse_id` key. -/
def widRec (id : String) : ExecRecord := ⟨some id, none, none⟩

/-- Six records whose warehouse ids repeat one id: five distinct ids are
available but the first five entries cover only four of them. -/
def dupIdRecords : List ExecRecord :=
  [widRec "A", widRec "A", widRec "B", widRec "C", widRec "D", widRec "E"]

/- ----------------------------------------------------------------- -/
/- answer_generator.py : _identify_issues (lines 236-272)            -/
/- ----------------------------------------------------------------- -/

/-- One entry of the `risks` list of a warehouse-data record:
`risk['type']` and `risk.get('count', 0)`. -/
structure RiskEntry where
  type : String
  count : ℤ

/-- The warehouse-data fields read by `_identify_issues`:
`warehouse_data.get('risk_score', 0)`, the truthiness of
`infra.get('has_electric_backup')` and `infra.get('is_flood_proof')`
(absent keys are falsy), and `warehouse_data.get('risks', [])`. -/
structure WarehouseData where
  risk_score : ℚ
  has_electric_backup : Bool
  is_flood_proof : Bool
  risks : List RiskEntry

/-- The content of an issue description f-string (presentational text keyed
by the data interpolated into it). -/
inductive IssueDesc where
  | highRisk (score : ℚ)
  | noBackup
  | notFloodProof
  | recurring (event_type : String) (count : ℤ)

/-- One issue record appended by `_identify_issues`. -/
structure Issue where
  type : String
  desc : IssueDesc
  severity : String

/-- Model of `AnswerGenerator._identify_issues`: one issue per satisfied
rule, in source order. -/
def identify_issues (w : WarehouseData) : List Issue :=
  (if w.risk_score > 0.7 then
    [⟨"high_risk", .highRisk w.risk_score, "critical"⟩] else [])
  ++ (if !w.has_electric_backup then
    [⟨"infrastructure", .noBackup, "high"⟩] else [])
  ++ (if !w.is_flood_proof then
    [⟨"infrastructure", .notFloodProof, "medium"⟩] else [])
  ++ w.risks.filterMap (fun risk =>
      if risk.count > 2 then
        some ⟨"recurring_incident", .recurring risk.type risk.count, "high"⟩
      else none)

/- ----------------------------------------------------------------- -/
/- pipeline.py : recommendations (261-318), responses (85-356)       -/
/- ----------------------------------------------------------------- -/

/-- A pipeline result record, reduced to the fields the recommendation code
reads: `record.get('risk_score', 0)`, `record.get('risk_count', 0)`,
`record.get('incident_count', 0)`, the truthiness of
`record.get('has_backup', True)`, `record.get('flood_proof', True)` and
`record.get('in_flood_zone', False)`, and `record.get('warehouse_id')`
(the empty string models a missing/None/empty id — all falsy). -/
structure ResultRecord where
  warehouse_id : String
  risk_score : ℚ
  risk_count : ℤ
  incident_count : ℤ
  has_backup : Bool
  flood_proof : Bool
  in_flood_zone : Bool

/-- The incident count used by `_calculate_priority` (line 283):
`record.get('risk_count', 0) or record.get('incident_count', 0)` — a zero
(falsy) risk_count falls through to incident_count. -/
def effective_incident_count (r : ResultRecord) : ℤ :=
  if r.risk_count = 0 then r.incident_count else r.risk_count

/-- Model of `GraphRAGPipeline._calculate_priority` (lines 280-292). -/
def calculate_priority (r : ResultRecord) : String :=
  if r.risk_score > 0.75 ∨ effective_incident_count r > 3 then "CRITICAL"
  else if r.risk_score > 0.6 ∨ effective_incident_count r > 2 then "HIGH"
  else if r.risk_score > 0.4 then "MEDIUM"
  else "LOW"

/-- Model of `GraphRAGPipeline._suggest_actions` (lines 294-318). -/
def suggest_actions (r : ResultRecord) : List String :=
  let actions : List String := []
  let actions := if r.risk_score > 0.7 then
    actions ++ ["Immediate risk assessment required"] else actions
  let actions := if !r.has_backup then
    actions ++ ["Install electric backup system"] else actions
  let actions := if !r.flood_proof && r.in_flood_zone then
    actions ++ ["Implement flood protection measures"] else actions
  let actions := if r.incident_count > 2 then
    actions ++ ["Investigate recurring incident patterns"] else actions
  if actions.isEmpty then ["Continue monitoring"] else actions

/-- One recommendation entry built at pipeline.py lines 271-275. -/
structure Recommendation where
  warehouse_id : String
  priority : String
  actions : List String

/-- Model of `GraphRAGPipeline._generate_warehouse_recommendations`
(lines 261-278): loop over `results[:3]`, skipping records whose
warehouse_id is falsy. -/
def generate_warehouse_recommendations (results : List ResultRecord) :
    List Recommendation :=
  (results.take 3).filterMap (fun record =>
    if record.warehouse_id ≠ "" then
      some ⟨record.warehouse_id, calculate_priority record,
            suggest_actions record⟩
    else none)

/-- Model of `GraphRAGPipeline._error_response` (lines 320-334). -/
def error_response (error_message : String) : List (String × JVal) :=
  [("success", .bool false),
   ("error", .str error_message),
   ("answer", .str ("I encountered an error processing your query: "
                    ++ error_message)),
   ("results", .arr []),
   ("result_count", .num 0),
   ("metadata", .obj
     [("processing_time_seconds", .num 0),
      ("results_returned", .num 0),
      ("query_complexity", .str "error"),
      ("graph_pattern", .str "error")])]

/-- Model of `GraphRAGPipeline._no_results_response` (lines 336-356). -/
def no_results_response (query : String) (understanding : List (String × JVal)) :
    List (String × JVal) :=
  [("success", .bool true),
   ("query", .str query),
   ("answer", .str "No warehouses match your query criteria. Try broadening your search or adjusting the filters."),
   ("results", .arr []),
   ("result_count", .num 0),
   ("understanding", .obj understanding),
   ("suggestion", .str "Try queries like: \x27Show all warehouses\x27 or \x27List warehouses by zone\x27"),
   ("metadata", .obj
     [("processing_time_seconds", .num 0),
      ("results_returned", .num 0),
      ("query_complexity", dgetD understanding "complexity" (.str "unknown")),
      ("graph_pattern", dgetD understanding "graph_pattern" (.str "unknown"))])]

/-- Model of the success response assembled at pipeline.py lines 85-101.
`answer`, `results`, `context`, `cypher_query` and `recommendations` are the
values produced by the earlier stages; `ptime` is the rounded wall-clock
duration and `max_results` is `Config.MAX_RESULTS` (an environment setting,
10 by default). -/
def success_response (user_query answer : String) (results : List JVal)
    (context : JVal) (understanding : List (String × JVal))
    (cypher_query : String) (recommendations : JVal) (ptime : ℚ)
    (max_results : Nat) : List (String × JVal) :=
  [("success", .bool true),
   ("query", .str user_query),
   ("answer", .str answer),
   ("results", .arr (results.take max_results)),
   ("result_count", .num results.length),
   ("context", context),
   ("understanding", .obj understanding),
   ("cypher_query", .str cypher_query),
   ("recommendations", recommendations),
   ("metadata", .obj
     [("processing_time_seconds", .num ptime),
      ("results_returned", .num results.length),
      ("query_complexity", dgetD understanding "complexity" (.str "unknown")),
      ("graph_pattern", dgetD understanding "graph_pattern" (.str "unknown"))])]

/- ----------------------------------------------------------------- -/
/- Helper lemmas about the string primitives                         -/
/- ----------------------------------------------------------------- -/

theorem pyStripL_append_of (xs ys : List Char)
    (h : (xs.dropWhile pyIsSpace).isEmpty = false) :
    pyStripL (xs ++ ys) = pyStripL xs ++ ys := by
  unfold pyStripL
  rw [List.dropWhile_append, h]
  simp

theorem pyStripR_append_of (xs ys : List Char)
    (h : (ys.reverse.dropWhile pyIsSpace).isEmpty = false) :
    pyStripR (xs ++ ys) = xs ++ pyStripR ys := by
  unfold pyStripR
  rw [List.reverse_append, List.dropWhile_append, h]
  simp

theorem isEmpty_append_left (l m : List Char) (h : l.isEmpty = false) :
    (l ++ m).isEmpty = false := by
  cases l with
  | nil => simp at h
  | cons c t => simp [List.cons_append]

theorem strStartsWith_append_of (p l t : List Char)
    (h : strStartsWith p l = true) : strStartsWith p (l ++ t) = true := by
  induction p generalizing l with
  | nil => rfl
  | cons c p ih =>
    cases l with
    | nil => simp [strStartsWith] at h
    | cons d l' =>
      simp only [strStartsWith, Bool.and_eq_true] at h
      simp only [List.cons_append, strStartsWith, Bool.and_eq_true]
      exact ⟨h.1, ih l' h.2⟩

theorem strHasSub_append_left (pat pre s : List Char)
    (h : strHasSub pat s = true) : strHasSub pat (pre ++ s) = true := by
  induction pre with
  | nil => simpa using h
  | cons c pre ih =>
    simp only [List.cons_append, strHasSub, Bool.or_eq_true]
    exact Or.inr ih

example (wid : List Char) :
    pyStrip (whFallbackPre.data ++ wid ++ whFallbackSuf.data)
      = (pyStripL whFallbackPre.data ++ wid) ++ pyStripR whFallbackSuf.data := by
  unfold pyStrip
  rw [List.append_assoc, pyStripL_append_of _ _ (by decide),
      ← List.append_assoc, pyStripR_append_of _ _ (by decide)]

theorem validate_wh_fallback (wid : List Char) :
    validate_cypher (pyStrip (whFallbackPre.data ++ wid ++ whFallbackSuf.data)) = true := by
  have hq : pyStrip (whFallbackPre.data ++ wid ++ whFallbackSuf.data)
      = (pyStripL whFallbackPre.data ++ wid) ++ pyStripR whFallbackSuf.data := by
    unfold pyStrip
    rw [List.append_assoc, pyStripL_append_of _ _ (by decide),
        ← List.append_assoc, pyStripR_append_of _ _ (by decide)]
  rw [hq]
  have h1 : (pyStrip ((pyStripL whFallbackPre.data ++ wid) ++ pyStripR whFallbackSuf.data)).isEmpty
      = false := by
    have hs : pyStrip ((pyStripL whFallbackPre.data ++ wid) ++ pyStripR whFallbackSuf.data)
        = (pyStripL whFallbackPre.data ++ wid) ++ pyStripR whFallbackSuf.data := by
      unfold pyStrip
      rw [List.append_assoc, pyStripL_append_of _ _ (by decide)]
      rw [show pyStripL (pyStripL whFallbackPre.data) = pyStripL whFallbackPre.data from by decide]
      rw [← List.append_assoc, pyStripR_append_of _ _ (by decide)]
      rw [show pyStripR (pyStripR whFallbackSuf.data) = pyStripR whFallbackSuf.data from by decide]
    rw [hs]
    exact isEmpty_append_left _ _ (isEmpty_append_left _ _ (by decide))
  have h2 : strStartsWith "MATCH".data
      (pyUpper ((pyStripL whFallbackPre.data ++ wid) ++ pyStripR whFallbackSuf.data)) = true := by
    unfold pyUpper
    rw [List.map_append]
    apply strStartsWith_append_of
    rw [List.map_append]
    apply strStartsWith_append_of
    decide
  have h3 : strHasSub "RETURN".data
      (pyUpper ((pyStripL whFallbackPre.data ++ wid) ++ pyStripR whFallbackSuf.data)) = true := by
    unfold pyUpper
    rw [List.map_append]
    exact strHasSub_append_left _ _ _ (by decide)
  unfold validate_cypher
  rw [h1, h2, h3]
  simp

/-- C1 counterexample: the fallback query produced for the
`risk_identification` intent (as for every other intent) begins with a
newline and indentation, and `_validate_cypher_syntax` applies `startswith`
to the raw, unstripped string, so the validator rejects the fallback output. -/
theorem fallback_unstripped_fails_validator :
    validate_cypher (generate_fallback_query "risk_identification".data []) = false := by
  decide

/-- C1 (amended): for every Understanding record (any intent string and any
entity list), the text produced by `_generate_fallback_query` passes
`_validate_cypher_syntax` once stripped of leading/trailing whitespace;
the raw fallback output is rejected only because of its leading whitespace. -/
theorem fallback_stripped_passes_validator (intent : List Char)
    (entities : List (List Char)) :
    validate_cypher (pyStrip (generate_fallback_query intent entities)) = true := by
  unfold generate_fallback_query
  split
  · decide
  · split
    · exact validate_wh_fallback _
    · decide

/-- C3: a candidate query whose uppercasing does not start with
MATCH/CREATE/MERGE, or which lacks a RETURN clause, is rejected by
`_validate_cypher_syntax`, and the non-template tier of
`QueryGenerator.process_query` then returns the fallback query instead of
the candidate. -/
theorem invalid_candidate_rejected_and_replaced
    (cypher_query intent : List Char) (entities : List (List Char))
    (h : (strStartsWith "MATCH".data (pyUpper cypher_query)
          || strStartsWith "CREATE".data (pyUpper cypher_query)
          || strStartsWith "MERGE".data (pyUpper cypher_query)) = false
       ∨ strHasSub "RETURN".data (pyUpper cypher_query) = false) :
    validate_cypher cypher_query = false
    ∧ process_query_generated cypher_query intent entities
        = generate_fallback_query intent entities := by
  have hv : validate_cypher cypher_query = false := by
    rcases h with h | h <;> simp [validate_cypher, h]
  refine ⟨hv, ?_⟩
  simp [process_query_generated, hv]

theorem invalid_candidate_rejected_and_replaced_witness :
    validate_cypher "foo".data = false
    ∧ process_query_generated "foo".data "x".data []
        = generate_fallback_query "x".data [] :=
  invalid_candidate_rejected_and_replaced "foo".data "x".data [] (Or.inl (by decide))

/- ----------------------------------------------------------------- -/
/- Helper lemmas about dict lookup / setdefault                      -/
/- ----------------------------------------------------------------- -/

theorem dlookup_append_none (d e : List (String × JVal)) (k : String)
    (h : dlookup d k = none) : dlookup (d ++ e) k = dlookup e k := by
  induction d with
  | nil => rfl
  | cons p rest ih =>
    obtain ⟨k', v⟩ := p
    by_cases hk : k = k'
    · simp [dlookup, hk] at h
    · simp only [dlookup, hk, if_false, List.cons_append] at h ⊢
      exact ih h

theorem dlookup_append_some (d e : List (String × JVal)) (k : String)
    (h : (dlookup d k).isSome = true) : dlookup (d ++ e) k = dlookup d k := by
  induction d with
  | nil => simp [dlookup] at h
  | cons p rest ih =>
    obtain ⟨k', v⟩ := p
    by_cases hk : k = k'
    · simp [dlookup, hk]
    · simp only [dlookup, hk, if_false, List.cons_append] at h ⊢
      exact ih h

theorem dlookup_setdefault_self (d : List (String × JVal)) (k : String)
    (v : JVal) : (dlookup (setdefault d k v) k).isSome = true := by
  unfold setdefault
  by_cases h : (dlookup d k).isSome = true
  · simp [h]
  · have hn : dlookup d k = none := by
      cases hh : dlookup d k
      · rfl
      · rw [hh] at h; simp at h
    rw [if_neg h, dlookup_append_none _ _ _ hn]
    simp [dlookup]

theorem dlookup_setdefault_mono (d : List (String × JVal)) (k : String)
    (v : JVal) (k' : String) (h : (dlookup d k').isSome = true) :
    (dlookup (setdefault d k v) k').isSome = true := by
  unfold setdefault
  by_cases hk : (dlookup d k).isSome = true
  · simp [hk, h]
  · rw [if_neg hk, dlookup_append_some _ _ _ h]
    exact h

theorem understanding_keys_present (u : List (String × JVal)) :
    (dlookup (apply_understanding_defaults u) "complexity").isSome = true
    ∧ (dlookup (apply_understanding_defaults u) "graph_pattern").isSome = true
    ∧ (dlookup (apply_understanding_defaults u) "data_focus").isSome = true
    ∧ (dlookup (apply_understanding_defaults u) "time_scope").isSome = true
    ∧ (dlookup (apply_understanding_defaults u) "requires_comparison").isSome = true
    ∧ (dlookup (apply_understanding_defaults u) "requires_aggregation").isSome = true
    ∧ (dlookup (apply_understanding_defaults u) "requires_temporal_analysis").isSome = true
    ∧ (dlookup (apply_understanding_defaults u) "requires_geospatial_analysis").isSome = true
    ∧ (dlookup (apply_understanding_defaults u) "output_format").isSome = true
    ∧ (dlookup (apply_understanding_defaults u) "filters").isSome = true := by
  unfold apply_understanding_defaults
  refine ⟨?_, ?_, ?_, ?_, ?_, ?_, ?_, ?_, ?_, ?_⟩
  · exact dlookup_setdefault_mono _ _ _ _ (dlookup_setdefault_mono _ _ _ _ (dlookup_setdefault_mono _ _ _ _ (dlookup_setdefault_mono _ _ _ _ (dlookup_setdefault_mono _ _ _ _ (dlookup_setdefault_mono _ _ _ _ (dlookup_setdefault_mono _ _ _ _ (dlookup_setdefault_mono _ _ _ _ (dlookup_setdefault_mono _ _ _ _ (dlookup_setdefault_self _ _ _)))))))))
  · exact dlookup_setdefault_mono _ _ _ _ (dlookup_setdefault_mono _ _ _ _ (dlookup_setdefault_mono _ _ _ _ (dlookup_setdefault_mono _ _ _ _ (dlookup_setdefault_mono _ _ _ _ (dlookup_setdefault_mono _ _ _ _ (dlookup_setdefault_mono _ _ _ _ (dlookup_setdefault_mono _ _ _ _ (dlookup_setdefault_self _ _ _))))))))
  · exact dlookup_setdefault_mono _ _ _ _ (dlookup_setdefault_mono _ _ _ _ (dlookup_setdefault_mono _ _ _ _ (dlookup_setdefault_mono _ _ _ _ (dlookup_setdefault_mono _ _ _ _ (dlookup_setdefault_mono _ _ _ _ (dlookup_setdefault_mono _ _ _ _ (dlookup_setdefault_self _ _ _)))))))
  · exact dlookup_setdefault_mono _ _ _ _ (dlookup_setdefault_mono _ _ _ _ (dlookup_setdefault_mono _ _ _ _ (dlookup_setdefault_mono _ _ _ _ (dlookup_setdefault_mono _ _ _ _ (dlookup_setdefault_mono _ _ _ _ (dlookup_setdefault_self _ _ _))))))
  · exact dlookup_setdefault_mono _ _ _ _ (dlookup_setdefault_mono _ _ _ _ (dlookup_setdefault_mono _ _ _ _ (dlookup_setdefault_mono _ _ _ _ (dlookup_setdefault_mono _ _ _ _ (dlookup_setdefault_self _ _ _)))))
  · exact dlookup_setdefault_mono _ _ _ _ (dlookup_setdefault_mono _ _ _ _ (dlookup_setdefault_mono _ _ _ _ (dlookup_setdefault_mono _ _ _ _ (dlookup_setdefault_self _ _ _))))
  · exact dlookup_setdefault_mono _ _ _ _ (dlookup_setdefault_mono _ _ _ _ (dlookup_setdefault_mono _ _ _ _ (dlookup_setdefault_self _ _ _)))
  · exact dlookup_setdefault_mono _ _ _ _ (dlookup_setdefault_mono _ _ _ _ (dlookup_setdefault_self _ _ _))
  · exact dlookup_setdefault_mono _ _ _ _ (dlookup_setdefault_self _ _ _)
  · exact dlookup_setdefault_self _ _ _

/-- C2 counterexample: when the service call succeeds and returns the valid
JSON object text `\x7b\x7d`, the Understanding returned by
`QueryGenerator.process_query` has no `intent`, `entities` or `risk_factors`
key at all — only the ten keys covered by `setdefault` are guaranteed. -/
theorem understanding_partial_object_missing_intent :
    (dlookup (process_understanding (.parsed (.obj []))) "intent").isNone = true
    ∧ (process_understanding (.parsed (.obj []))).map Prod.fst
      = ["complexity", "graph_pattern", "data_focus", "time_scope",
         "requires_comparison", "requires_aggregation",
         "requires_temporal_analysis", "requires_geospatial_analysis",
         "output_format", "filters"] :=
  ⟨rfl, rfl⟩

/-- C2 (amended): for every outcome of the text-generation service the call
never raises (every raise point is caught and modelled as a handled branch),
and the returned Understanding always contains the ten `setdefault`-covered
fields (complexity, graph_pattern, data_focus, time_scope, the four boolean
analysis flags, output_format, filters); on a raised call failure, on
unparseable text, and on a parsed non-object value it is exactly the
documented 13-field type-correct default record.  `intent`, `entities` and
`risk_factors` are present only in the default records or when the service
itself supplies them, and service-supplied values are passed through without
a type check. -/
theorem understanding_always_defaulted (r : LLMResult) :
    ((dlookup (process_understanding r) "complexity").isSome = true
     ∧ (dlookup (process_understanding r) "graph_pattern").isSome = true
     ∧ (dlookup (process_understanding r) "data_focus").isSome = true
     ∧ (dlookup (process_understanding r) "time_scope").isSome = true
     ∧ (dlookup (process_understanding r) "requires_comparison").isSome = true
     ∧ (dlookup (process_understanding r) "requires_aggregation").isSome = true
     ∧ (dlookup (process_understanding r) "requires_temporal_analysis").isSome = true
     ∧ (dlookup (process_understanding r) "requires_geospatial_analysis").isSome = true
     ∧ (dlookup (process_understanding r) "output_format").isSome = true
     ∧ (dlookup (process_understanding r) "filters").isSome = true)
    ∧ process_understanding .raiseErr = default_error_understanding
    ∧ process_understanding .badJson = default_general_understanding
    ∧ (∀ v : JVal, jIsObj v = false →
        process_understanding (.parsed v) = default_error_understanding) := by
  refine ⟨understanding_keys_present _, rfl, rfl, ?_⟩
  intro v hv
  cases v <;> first | rfl | simp [jIsObj] at hv

theorem understanding_always_defaulted_witness :
    process_understanding .raiseErr = default_error_understanding
    ∧ process_understanding (.parsed (.str "oops")) = default_error_understanding :=
  ⟨(understanding_always_defaulted .raiseErr).2.1,
   (understanding_always_defaulted .raiseErr).2.2.2 (.str "oops") rfl⟩

/- ----------------------------------------------------------------- -/
/- Executor theorems (C7, C8)                                        -/
/- ----------------------------------------------------------------- -/

/-- C7: whenever the primary query yields an empty result sequence — in
particular whenever the graph store raises, which `execute_query` swallows
into an empty sequence without propagating — `execute_with_context` returns
exactly the record modelling
`\x7bresults: [], context: \x7b\x7d, summary: "No results found"\x7d`. -/
theorem execute_with_context_empty {γ δ : Type} (resp : StoreResp)
    (related_entities : List String → γ) (risk_summary : List String → δ)
    (msg : String) (h : execute_query resp = []) :
    execute_with_context resp related_entities risk_summary
      = ⟨[], none, .noResults⟩
    ∧ execute_query (.failed msg) = [] := by
  refine ⟨?_, rfl⟩
  simp [execute_with_context, h]

theorem execute_with_context_empty_witness :
    execute_with_context (.failed "boom") (fun ids : List String => ids)
        (fun ids : List String => ids) = ⟨[], none, .noResults⟩
    ∧ execute_query (.failed "oops") = [] :=
  execute_with_context_empty (.failed "boom") (fun ids => ids)
    (fun ids => ids) "oops" rfl

/-- C8 counterexample: with primary records whose warehouse ids are
A,A,B,C,D,E the two follow-up context queries receive the first five id
entries [A,A,B,C,D] — covering only four distinct ids — although five
distinct ids are available; `execute_with_context` never deduplicates
`warehouse_ids` before slicing `[:5]`. -/
theorem context_ids_duplicates_counterexample :
    (execute_with_context (.ok dupIdRecords) (fun ids : List String => ids)
        (fun ids : List String => ids)).context
      = some (["A", "A", "B", "C", "D"], ["A", "A", "B", "C", "D"])
    ∧ ((["A", "A", "B", "C", "D", "E"] : List String).dedup.take 5
        = ["A", "B", "C", "D", "E"])
    ∧ (["A", "A", "B", "C", "D"] : List String) ≠ ["A", "B", "C", "D", "E"] := by
  refine ⟨rfl, by decide, by decide⟩

/-- C8 (amended): for every non-empty primary result sequence whose records
carry warehouse identifiers, `execute_with_context` issues its two follow-up
context queries over the first 5 warehouse-id entries in result order,
duplicates included — so duplicate ids among the first records reduce the
number of distinct identifiers covered below 5 even when 5 are available. -/
theorem context_ids_first_five (resp : StoreResp) {γ δ : Type}
    (related_entities : List String → γ) (risk_summary : List String → δ)
    (h : (execute_query resp).filterMap (fun r => r.warehouse_id) ≠ []) :
    (execute_with_context resp related_entities risk_summary).context
      = some (related_entities
                (((execute_query resp).filterMap
                    (fun r => r.warehouse_id)).take 5),
              risk_summary
                (((execute_query resp).filterMap
                    (fun r => r.warehouse_id)).take 5)) := by
  have hne : execute_query resp ≠ [] := by
    intro he
    rw [he] at h
    exact h rfl
  have hpe : (execute_query resp).isEmpty = false := by
    cases hq : execute_query resp
    · exact absurd hq hne
    · rfl
  have hwe : ((execute_query resp).filterMap
      (fun r => r.warehouse_id)).isEmpty = false := by
    cases hq : (execute_query resp).filterMap (fun r => r.warehouse_id)
    · exact absurd hq h
    · rfl
  simp [execute_with_context, hpe, hwe]

theorem context_ids_first_five_witness :
    (execute_with_context (.ok [widRec "W1"]) (fun ids : List String => ids)
        (fun ids : List String => ids)).context = some (["W1"], ["W1"]) := by
  have h := context_ids_first_five (.ok [widRec "W1"])
      (fun ids : List String => ids) (fun ids : List String => ids)
      (by decide)
  exact h.trans rfl

/- ----------------------------------------------------------------- -/
/- Pipeline priority / action theorems (C4, C5)                      -/
/- ----------------------------------------------------------------- -/

/-- C4: `_calculate_priority` returns CRITICAL iff risk_score>0.75 or the
effective incident count (risk_count, falling back to incident_count when
risk_count is falsy) exceeds 3; else HIGH iff risk_score>0.6 or the count
exceeds 2; else MEDIUM iff risk_score>0.4; else LOW — with the boundary
cases 0.75→HIGH, 0.751→CRITICAL, count 3→HIGH, count 4→CRITICAL. -/
theorem priority_rule (r : ResultRecord) :
    (calculate_priority r = "CRITICAL"
      ↔ (r.risk_score > 0.75 ∨ effective_incident_count r > 3))
    ∧ (calculate_priority r = "HIGH"
      ↔ (¬(r.risk_score > 0.75 ∨ effective_incident_count r > 3)
         ∧ (r.risk_score > 0.6 ∨ effective_incident_count r > 2)))
    ∧ (calculate_priority r = "MEDIUM"
      ↔ (¬(r.risk_score > 0.75 ∨ effective_incident_count r > 3)
         ∧ ¬(r.risk_score > 0.6 ∨ effective_incident_count r > 2)
         ∧ r.risk_score > 0.4))
    ∧ (calculate_priority r = "LOW"
      ↔ (¬(r.risk_score > 0.75 ∨ effective_incident_count r > 3)
         ∧ ¬(r.risk_score > 0.6 ∨ effective_incident_count r > 2)
         ∧ ¬(r.risk_score > 0.4)))
    ∧ calculate_priority ⟨"w", 0.75, 0, 0, true, true, false⟩ = "HIGH"
    ∧ calculate_priority ⟨"w", 0.751, 0, 0, true, true, false⟩ = "CRITICAL"
    ∧ calculate_priority ⟨"w", 0, 0, 3, true, true, false⟩ = "HIGH"
    ∧ calculate_priority ⟨"w", 0, 0, 4, true, true, false⟩ = "CRITICAL" := by
  refine ⟨?_, ?_, ?_, ?_,
    by norm_num [calculate_priority, effective_incident_count],
    by norm_num [calculate_priority, effective_incident_count],
    by norm_num [calculate_priority, effective_incident_count],
    by norm_num [calculate_priority, effective_incident_count]⟩ <;>
  · unfold calculate_priority
    by_cases h1 : (r.risk_score > 0.75 ∨ effective_incident_count r > 3) <;>
    by_cases h2 : (r.risk_score > 0.6 ∨ effective_incident_count r > 2) <;>
    by_cases h3 : (r.risk_score > 0.4) <;>
    simp [h1, h2, h3]

/-- C5: `_suggest_actions` returns, in fixed order, exactly the applicable
clauses — risk assessment if risk_score>0.7, electric backup if the backup
flag is falsy, flood protection if flood_proof is falsy AND the record is in
a flood zone, recurring-incident investigation if incident_count>2 — and
the single action Continue monitoring when none applied. -/
theorem suggest_actions_rule (r : ResultRecord) :
    suggest_actions r =
      (let clauses :=
        (if r.risk_score > 0.7 then
          ["Immediate risk assessment required"] else [])
        ++ (if !r.has_backup then
          ["Install electric backup system"] else [])
        ++ (if !r.flood_proof && r.in_flood_zone then
          ["Implement flood protection measures"] else [])
        ++ (if r.incident_count > 2 then
          ["Investigate recurring incident patterns"] else [])
       if clauses = [] then ["Continue monitoring"] else clauses) := by
  unfold suggest_actions
  by_cases h1 : r.risk_score > 0.7 <;>
  by_cases h2 : r.has_backup = true <;>
  by_cases h3 : (!r.flood_proof && r.in_flood_zone) = true <;>
  by_cases h4 : r.incident_count > 2 <;>
  simp [h1, h2, h3, h4]

/- ----------------------------------------------------------------- -/
/- Answer-generator theorems (C6)                                    -/
/- ----------------------------------------------------------------- -/

theorem severities_of_recurring (risks : List RiskEntry) :
    (risks.filterMap (fun risk =>
        if risk.count > 2 then
          some (⟨"recurring_incident", .recurring risk.type risk.count,
                 "high"⟩ : Issue)
        else none)).map (fun i => i.severity)
      = (risks.filter (fun risk => risk.count > 2)).map (fun _ => "high") := by
  induction risks with
  | nil => rfl
  | cons risk rest ih =>
    by_cases h : risk.count > 2 <;> simp [h, ih]

/-- C6: `_identify_issues` emits one issue per satisfied rule — risk_score
greater than 0.7 (critical), no electric backup (high), not flood-proof
(medium), and each risk entry recurring more than twice (high), in that
order — and on a warehouse with risk_score 0.71, no backup, no flood
proofing and one breakdown entry of count 3 it returns exactly 4 issues
with severities [critical, high, medium, high]. -/
theorem identify_issues_rule (w : WarehouseData) :
    ((identify_issues w).map (fun i => i.severity)
      = (if w.risk_score > 0.7 then ["critical"] else [])
        ++ (if !w.has_electric_backup then ["high"] else [])
        ++ (if !w.is_flood_proof then ["medium"] else [])
        ++ (w.risks.filter (fun risk => risk.count > 2)).map (fun _ => "high"))
    ∧ identify_issues ⟨0.71, false, false, [⟨"breakdown", 3⟩]⟩
      = [⟨"high_risk", .highRisk 0.71, "critical"⟩,
         ⟨"infrastructure", .noBackup, "high"⟩,
         ⟨"infrastructure", .notFloodProof, "medium"⟩,
         ⟨"recurring_incident", .recurring "breakdown" 3, "high"⟩]
    ∧ (identify_issues ⟨0.71, false, false, [⟨"breakdown", 3⟩]⟩).length = 4 := by
  refine ⟨?_, ?_, ?_⟩
  · by_cases h1 : w.risk_score > 0.7 <;>
    by_cases h2 : w.has_electric_backup = true <;>
    by_cases h3 : w.is_flood_proof = true <;>
    simp [identify_issues, h1, h2, h3, severities_of_recurring]
  · norm_num [identify_issues, List.filterMap_cons]
  · norm_num [identify_issues, List.filterMap_cons]

/- ----------------------------------------------------------------- -/
/- Pipeline response-shape theorems (C9)                             -/
/- ----------------------------------------------------------------- -/

/-- C9 counterexample: the error response has no `query` key at all, while
the success response does — the error variant does not keep the success
response's top-level shape (it also drops `context`, `understanding`,
`cypher_query` and `recommendations`). -/
theorem error_response_lacks_query_key :
    (dlookup (error_response "boom") "query").isNone = true
    ∧ dlookup (success_response "q" "a" [] .null [] "c" .null 0 10) "query"
      = some (.str "q") :=
  ⟨rfl, rfl⟩

/-- C9 (amended): the three response variants have these exact top-level
key lists — the error response keeps only success/answer/results/
result_count/metadata of the success shape (adding `error`), and the
no-results response drops context/cypher_query/recommendations (adding
`suggestion`). -/
theorem response_key_shapes (error_message query : String)
    (understanding : List (String × JVal)) (user_query answer : String)
    (results : List JVal) (context : JVal) (cypher_query : String)
    (recommendations : JVal) (ptime : ℚ) (max_results : Nat) :
    (error_response error_message).map Prod.fst
      = ["success", "error", "answer", "results", "result_count", "metadata"]
    ∧ (no_results_response query understanding).map Prod.fst
      = ["success", "query", "answer", "results", "result_count",
         "understanding", "suggestion", "metadata"]
    ∧ (success_response user_query answer results context understanding
        cypher_query recommendations ptime max_results).map Prod.fst
      = ["success", "query", "answer", "results", "result_count", "context",
         "understanding", "cypher_query", "recommendations", "metadata"] :=
  ⟨rfl, rfl, rfl⟩

/- ----------------------------------------------------------------- -/
/- Pipeline recommendation-list theorems (C10)                       -/
/- ----------------------------------------------------------------- -/

theorem rec_filterMap_eq (l : List ResultRecord) :
    l.filterMap (fun record =>
        if record.warehouse_id ≠ "" then
          some (⟨record.warehouse_id, calculate_priority record,
                suggest_actions record⟩ : Recommendation)
        else none)
      = (l.filter (fun record => record.warehouse_id ≠ "")).map
          (fun record => ⟨record.warehouse_id, calculate_priority record,
                          suggest_actions record⟩) := by
  induction l with
  | nil => rfl
  | cons record rest ih =>
    by_cases h : record.warehouse_id = ""
    · simpa [List.filterMap_cons, List.filter_cons, h] using ih
    · simpa [List.filterMap_cons, List.filter_cons, h] using ih

theorem calculate_priority_mem (r : ResultRecord) :
    calculate_priority r = "CRITICAL" ∨ calculate_priority r = "HIGH"
    ∨ calculate_priority r = "MEDIUM" ∨ calculate_priority r = "LOW" := by
  unfold calculate_priority
  split
  · exact Or.inl rfl
  · split
    · exact Or.inr (Or.inl rfl)
    · split
      · exact Or.inr (Or.inr (Or.inl rfl))
      · exact Or.inr (Or.inr (Or.inr rfl))

theorem suggest_actions_ne_nil (r : ResultRecord) :
    (suggest_actions r).isEmpty = false := by
  unfold suggest_actions
  by_cases h1 : r.risk_score > 0.7 <;>
  by_cases h2 : r.has_backup = true <;>
  by_cases h3 : (!r.flood_proof && r.in_flood_zone) = true <;>
  by_cases h4 : r.incident_count > 2 <;>
  simp [h1, h2, h3, h4]

/-- C10: the recommendation list contains at most 3 entries, is exactly the
image of the records among the first 3 results whose warehouse_id is truthy
(so it can be shorter than 3 or empty, but is always a list), and every
entry carries a priority among CRITICAL/HIGH/MEDIUM/LOW and a non-empty
action list. -/
theorem recommendations_invariants (results : List ResultRecord) :
    (generate_warehouse_recommendations results).length ≤ 3
    ∧ generate_warehouse_recommendations results
      = ((results.take 3).filter (fun r => r.warehouse_id ≠ "")).map
          (fun r => ⟨r.warehouse_id, calculate_priority r, suggest_actions r⟩)
    ∧ ((generate_warehouse_recommendations results).all (fun entry =>
        (entry.priority == "CRITICAL" || entry.priority == "HIGH"
         || entry.priority == "MEDIUM" || entry.priority == "LOW")
        && !entry.actions.isEmpty)) = true := by
  have heq : generate_warehouse_recommendations results
      = ((results.take 3).filter (fun r => r.warehouse_id ≠ "")).map
          (fun r => (⟨r.warehouse_id, calculate_priority r,
                      suggest_actions r⟩ : Recommendation)) := by
    unfold generate_warehouse_recommendations
    exact rec_filterMap_eq _
  refine ⟨?_, heq, ?_⟩
  · rw [heq, List.length_map]
    exact le_trans (List.length_filter_le _ _) (List.length_take_le _ _)
  · rw [List.all_eq_true]
    intro entry hmem
    rw [heq] at hmem
    obtain ⟨r, hr, rfl⟩ := List.mem_map.mp hmem
    rcases calculate_priority_mem r with h | h | h | h <;>
      simp [h, suggest_actions_ne_nil r]
